import Mathlib

/-!
Verification of the orchestration engine of the yourHealth repository.

Shallow embedding of `src/app/core/simple_ai_agents.py` and
`src/app/core/ai_agents.py`.  The two external collaborators are modelled as
explicit outcome parameters:

* a generation-service call is an `Except String String` value — `.ok text`
  models a returned string, `.error msg` models a raised exception whose
  `str(e)` is `msg`;
* a retrieval-service call (`vector_store.semantic_search`) is an
  `Except String (List Snippet)` value in the same way.

Python dictionaries returned by the agents are modelled as structures whose
optional fields use `Option` (`none` = key absent from the dict).  Confidence
scores are `Rat`, matching the Python float constants 0.0 / 0.1 / 0.3 / 0.6 /
0.8 exactly (every confidence the code produces is a decimal with one digit,
so rationals lose nothing).  Wall-clock time in the streaming path is modelled
in whole seconds as `Nat`.
-/

/-- Python substring test `pat in s` (`str.__contains__`). -/
def strContains (s pat : String) : Bool := decide (pat.data <:+: s.data)

/-- Python `any(word in haystack for word in words)`. -/
def containsAny (haystack : String) (words : List String) : Bool :=
  words.any (fun w => strContains haystack w)

/-- Python `str.lower()`, modelled characterwise over the code points (the
queries and keywords involved are ASCII, where this agrees with Python). -/
def pyLower (s : String) : String := String.mk (s.data.map Char.toLower)

/-- Enum `AgentRole` of `simple_ai_agents.py` (`ai_agents.py` declares the
same six members). -/
inductive AgentRole where
  | dna_analyst
  | microbiome_expert
  | biomarker_interpreter
  | correlation_finder
  | recommendation_engine
  | orchestrator
deriving DecidableEq

/-- The `.value` attribute of each `AgentRole` member. -/
def AgentRole.value : AgentRole → String
  | .dna_analyst => "dna_analyst"
  | .microbiome_expert => "microbiome_expert"
  | .biomarker_interpreter => "biomarker_interpreter"
  | .correlation_finder => "correlation_finder"
  | .recommendation_engine => "recommendation_engine"
  | .orchestrator => "orchestrator"

/-- Iteration order of `for role in AgentRole` in `simple_ai_agents.py`
(declaration order of the enum members). -/
def allRoles : List AgentRole :=
  [.dna_analyst, .microbiome_expert, .biomarker_interpreter,
   .correlation_finder, .recommendation_engine, .orchestrator]

/-- `dna_keywords` of `SimpleAIOrchestrator._select_relevant_agents`. -/
def dna_keywords : List String :=
  ["dna", "genetic", "gene", "mutation", "variant", "genome"]

/-- `microbiome_keywords` of `SimpleAIOrchestrator._select_relevant_agents`. -/
def microbiome_keywords : List String :=
  ["microbiome", "gut", "bacteria", "probiotic", "prebiotic", "digest"]

/-- `biomarker_keywords` of `SimpleAIOrchestrator._select_relevant_agents`. -/
def biomarker_keywords : List String :=
  ["blood test", "lab result", "biomarker", "level", "high", "low", "test result"]

/-- One agent result dict.  `error` and `sources` are keys that only some of
the produced dicts carry, hence `Option`. -/
structure AgentResult where
  agent : String
  response : String
  confidence : Rat
  error : Option String := none
  sources : Option (List String) := none
deriving DecidableEq

/-- `SimpleHealthAgent._calculate_confidence` (`simple_ai_agents.py`,
lines 190-202).  `if not response` is true exactly for the empty string. -/
def SimpleHealthAgent.calculate_confidence (response : String) : Rat :=
  if response.length = 0 then 0
  else if response.length < 50 then 3/10
  else if response.length < 200 then 6/10
  else 8/10

/-- `HealthAIAgent._calculate_confidence` (`ai_agents.py`, lines 169-181);
its body is character-for-character the same as the simple variant. -/
def HealthAIAgent.calculate_confidence (response : String) : Rat :=
  if response.length = 0 then 0
  else if response.length < 50 then 3/10
  else if response.length < 200 then 6/10
  else 8/10

/-- `SimpleHealthAgent.process` (`simple_ai_agents.py`, lines 77-117).
Prompt construction is pure string assembly and cannot fail; the only
fallible step is the `generate_response` call, whose outcome is the `gen`
parameter.  On success the dict has no `error` key; on exception the dict
carries `confidence` 0.1, a fixed failure text mentioning the task, and the
exception text under `error`. -/
def SimpleHealthAgent.process (role : AgentRole) (task : String)
    (gen : Except String String) : AgentResult :=
  match gen with
  | Except.ok response =>
    { agent := role.value
      response := response
      confidence := SimpleHealthAgent.calculate_confidence response }
  | Except.error e =>
    { agent := role.value
      response := "I was unable to provide insights on " ++ task ++ " due to an error."
      confidence := 1/10
      error := some e }

/-- One retrieval snippet, the part of the `semantic_search` result dicts that
`HealthAIAgent.process` reads (`content` for the prompt, `id` for `sources`). -/
structure Snippet where
  id : String
  content : String
deriving DecidableEq

/-- `HealthAIAgent._search_relevant_data` (`ai_agents.py`, lines 141-167):
a raised retrieval error is caught inside this helper and turned into the
empty result list, so the caller never sees it. -/
def HealthAIAgent.search_relevant_data (ret : Except String (List Snippet)) :
    List Snippet :=
  match ret with
  | Except.ok results => results
  | Except.error _ => []

/-- `HealthAIAgent.process` (`ai_agents.py`, lines 86-139).  `ret` is the
retrieval-service outcome, `gen` the generation-service outcome.  The
`sources` key mirrors `[r.get(...) for r in search_results[:3]] if
search_results else []`. -/
def HealthAIAgent.process (role : AgentRole) (_task : String)
    (ret : Except String (List Snippet)) (gen : Except String String) :
    AgentResult :=
  let search_results := HealthAIAgent.search_relevant_data ret
  match gen with
  | Except.ok response =>
    { agent := role.value
      response := response
      confidence := HealthAIAgent.calculate_confidence response
      sources := some (if search_results.isEmpty then []
                       else (search_results.take 3).map Snippet.id) }
  | Except.error e =>
    { agent := role.value
      response := "Unable to analyze " ++ role.value ++ " data: " ++ e
      confidence := 1/10
      error := some e }

/-- The `self.agents` dict built by `SimpleAIOrchestrator._initialize_agents`
(lines 222-227): the five specialist roles, keyed by role value.  The
`orchestrator` role is never registered. -/
def agentsDict : String → Option AgentRole
  | "dna_analyst" => some .dna_analyst
  | "microbiome_expert" => some .microbiome_expert
  | "biomarker_interpreter" => some .biomarker_interpreter
  | "correlation_finder" => some .correlation_finder
  | "recommendation_engine" => some .recommendation_engine
  | _ => none

/-- The parallel-dispatch core of `SimpleAIOrchestrator.process_query`
(lines 238-244): walk the requested role list in order, keep only the roles
registered in `self.agents`, start one `process` task per kept role, and
`asyncio.gather` the results — `gather` returns the results in the order the
tasks were passed.  `gen` gives each dispatched agent its generation outcome;
an agent never raises (failures are absorbed inside `process`), so the join
always yields one `AgentResult` per kept role. -/
def dispatch (agent_types : List String) (task : String)
    (gen : String → Except String String) : List AgentResult :=
  (agent_types.filterMap agentsDict).map
    (fun role => SimpleHealthAgent.process role task (gen role.value))

/-- Result dict of `_synthesize_responses`; only the success branch carries a
`source_agents` key. -/
structure SynthResult where
  response : String
  source_agents : Option (List String) := none
deriving DecidableEq

/-- `SimpleAIOrchestrator._synthesize_responses` (lines 346-395; the body of
`HealthAIOrchestrator._synthesize_responses`, `ai_agents.py` lines 312-359,
is identical in every branch modelled here).  The second component of the
returned pair records whether the generation service was invoked: the
empty-results branch returns before the call.  A failing generation call is
caught inside the function — the embedding returns a plain value in every
case, so synthesis never raises past this boundary. -/
def synthesize_responses (_query : String) (agent_results : List AgentResult)
    (gen : Except String String) : SynthResult × Bool :=
  if agent_results.isEmpty then
    ({ response := "I don\x27t have enough information to answer your health question." },
     false)
  else
    match gen with
    | Except.ok final_response =>
      ({ response := final_response
         source_agents := some (agent_results.map (fun r => r.agent)) }, true)
    | Except.error _ =>
      match agent_results.find? (fun r => r.agent == "recommendation_engine") with
      | some result => ({ response := result.response }, true)
      | none =>
        ({ response := "I processed your health query but had trouble synthesizing the insights." },
         true)

/-- `SimpleAIOrchestrator._select_relevant_agents` (lines 272-344).  `llm` is
the outcome of the fallback-tier `generate_response` call under
`asyncio.wait_for(..., timeout=3.0)`: `.error` covers both
`asyncio.TimeoutError` and any other exception (the code catches
`(asyncio.TimeoutError, Exception)`).  The keyword tier collects matched
roles into a Python set and returns `list(selected_agents)`; the embedding
fixes the insertion order dna / microbiome / biomarker followed by the two
always-appended defaults — no theorem below depends on the order of that
branch, only on membership.  The fallback tier appends via `extend`, which
the embedding reproduces (duplicates and all). -/
def select_relevant_agents (query : String) (llm : Except String String) :
    List String :=
  let query_lower := pyLower query
  let keyword_selected :=
    (if containsAny query_lower dna_keywords then [AgentRole.dna_analyst.value] else []) ++
    (if containsAny query_lower microbiome_keywords then [AgentRole.microbiome_expert.value] else []) ++
    (if containsAny query_lower biomarker_keywords then [AgentRole.biomarker_interpreter.value] else [])
  if keyword_selected.isEmpty then
    match llm with
    | Except.error _ =>
      [AgentRole.correlation_finder.value, AgentRole.recommendation_engine.value]
    | Except.ok response =>
      let selected :=
        (allRoles.filter (fun role => strContains (pyLower response) role.value)).map
          AgentRole.value
      if selected.isEmpty then
        [AgentRole.correlation_finder.value, AgentRole.recommendation_engine.value]
      else
        selected ++ [AgentRole.correlation_finder.value, AgentRole.recommendation_engine.value]
  else
    keyword_selected ++
      [AgentRole.correlation_finder.value, AgentRole.recommendation_engine.value]

/-- The greeting keyword list of `SimpleAIOrchestrator.stream_query`
(line 404). -/
def greetingWords : List String := ["hello", "hi", "hey", "greetings"]

/-- The preference chain of `stream_query` (lines 417-422): prefer
`recommendation_engine` when selected, else the first selected role, else
`recommendation_engine` again. -/
def pickStreamAgent (agent_types : List String) : String :=
  if "recommendation_engine" ∈ agent_types then "recommendation_engine"
  else
    match agent_types with
    | t :: _ => t
    | [] => "recommendation_engine"

/-- Agent choice of `stream_query` (lines 402-425).  `selection = none`
models the selector call hitting its 5 s `asyncio.wait_for` deadline;
`selection = some roles` models it completing with `roles`.  The boolean
records whether the Relevance Selector was invoked at all — the greeting
branch returns before the selector call is even started. -/
def chooseStreamAgent (query : String) (selection : Option (List String)) :
    String × Bool :=
  if containsAny (pyLower query) greetingWords then
    (AgentRole.recommendation_engine.value, false)
  else
    match selection with
    | some agent_types => (pickStreamAgent agent_types, true)
    | none => (AgentRole.recommendation_engine.value, true)

/-- The terminal chunk yielded by `stream_query` when a streaming budget is
exceeded (line 456). -/
def stream_timeout_message : String :=
  "\nI\x27m having trouble generating a complete response right now. Please try again with a more specific query."

/-- The delivery loop of `stream_query` (lines 432-456).  The producing
agent is a lazy chunk source, modelled as a list of (production time in
seconds, token); the end of the list is the `StopAsyncIteration`.  Each
iteration first compares the elapsed wall clock against the overall 30 s
budget (raising `asyncio.TimeoutError` if exceeded, even when the stream is
already exhausted — the check runs before `__anext__`), then awaits the next
chunk under a 5 s `asyncio.wait_for`.  Either timeout is caught by the one
`except asyncio.TimeoutError` around the loop, which yields
`stream_timeout_message` and falls off the end of the generator.  The second
component of the result is the part of the producer that was never consumed:
after a timeout the producer is abandoned (the pending `__anext__` is
cancelled by `wait_for`), never retried. -/
def streamLoop : Nat → List (Nat × String) → List String × List (Nat × String)
  | elapsed, [] =>
    if elapsed > 30 then ([stream_timeout_message], []) else ([], [])
  | elapsed, (dt, tok) :: rest =>
    if elapsed > 30 then ([stream_timeout_message], (dt, tok) :: rest)
    else if dt > 5 then ([stream_timeout_message], (dt, tok) :: rest)
    else
      let p := streamLoop (elapsed + dt) rest
      (tok :: p.1, p.2)

/-- Index of the chunk at which the delivery loop of `stream_query` first
trips a budget: `some k` means the loop times out after `k` chunks were
delivered (either the overall 30 s budget is already exceeded when the loop
re-checks, or chunk `k` takes longer than its 5 s allowance); `none` means
the whole stream is delivered. -/
def firstTimeoutIdx : Nat → List (Nat × String) → Option Nat
  | elapsed, [] => if elapsed > 30 then some 0 else none
  | elapsed, (dt, _) :: rest =>
    if elapsed > 30 then some 0
    else if dt > 5 then some 0
    else (firstTimeoutIdx (elapsed + dt) rest).map (fun k => k + 1)

/-- A metadata value of an `AgentMessage` (`Dict[str, Any]` in the source;
the orchestrator only ever stores strings, lists of agent names, and the
confidence-score map). -/
inductive MetaValue where
  | str (s : String)
  | strs (xs : List String)
  | scores (xs : List (String × Rat))
deriving DecidableEq

/-- Dataclass `AgentMessage` of `simple_ai_agents.py` (timestamp omitted:
wall-clock creation time, unused by any claim). -/
structure AgentMessage where
  role : String
  content : String
  metadata : List (String × MetaValue)
deriving DecidableEq

/-- A Python runtime value that `process_query` may hold where it expects the
selected role list: either an actual list, or a coroutine object. -/
inductive PyValue where
  | pyList (xs : List String)
  | coroutineObj (fn : String)
deriving DecidableEq

/-- `await asyncio.to_thread(self._select_relevant_agents, query)` at
line 235 of `simple_ai_agents.py`.  `_select_relevant_agents` is declared
`async def`, so the worker thread that calls it merely creates its coroutine
object — the body never runs — and `to_thread` hands that object back to the
awaiting caller unchanged. -/
def to_thread_select_relevant_agents (_query : String) : PyValue :=
  PyValue.coroutineObj "_select_relevant_agents"

/-- `for agent_type in v:` — iterating a list succeeds; iterating a coroutine
object raises `TypeError` with exactly this `str(e)` text. -/
def pyIterate : PyValue → Except String (List String)
  | PyValue.pyList xs => Except.ok xs
  | PyValue.coroutineObj _ => Except.error "\x27coroutine\x27 object is not iterable"

/-- Observable outcome of one `process_query` call: the returned
`AgentMessage` plus the list of agents actually dispatched during the call. -/
structure ProcessQueryOut where
  message : AgentMessage
  dispatched_agents : List String
deriving DecidableEq

/-- `SimpleAIOrchestrator.process_query` (lines 229-270).  The body runs
under one `try`: obtain the selection (line 235), iterate it to build the
agent tasks, gather, synthesize; any exception reaches the single handler,
which returns the orchestrator-role apology message with the exception text
under the `error` metadata key.  `agentGen` and `synthGen` are the
generation outcomes the happy path would consume. -/
def process_query (query : String) (agentGen : String → Except String String)
    (synthGen : Except String String) : ProcessQueryOut :=
  match pyIterate (to_thread_select_relevant_agents query) with
  | Except.error e =>
    { message :=
        { role := AgentRole.orchestrator.value
          content := "I\x27m sorry, but I encountered an error processing your query: " ++ e
          metadata := [("error", MetaValue.str e), ("query", MetaValue.str query)] }
      dispatched_agents := [] }
  | Except.ok agent_types =>
    let agent_results := dispatch agent_types query agentGen
    let synthesis := (synthesize_responses query agent_results synthGen).1
    { message :=
        { role := AgentRole.orchestrator.value
          content := synthesis.response
          metadata :=
            [("agents_used", MetaValue.strs (agent_results.map (fun r => r.agent))),
             ("query", MetaValue.str query),
             ("confidence_scores",
              MetaValue.scores (agent_results.map (fun r => (r.agent, r.confidence))))] }
      dispatched_agents := agent_results.map (fun r => r.agent) }

/-- Hypothesis of claim C5: the fallback-tier generation call is unusable —
it timed out or raised, or it returned text in which no role name of the
closed `AgentRole` set occurs (the parse at lines 324-327 checks
`role.value in response.lower()` for every enum member). -/
def llmUnusable : Except String String → Prop
  | Except.error _ => True
  | Except.ok response =>
    ∀ role ∈ allRoles, strContains (pyLower response) role.value = false

/-- An all-ASCII string of the given length, for boundary witnesses. -/
def charsOfLen (n : Nat) : String := String.mk (List.replicate n 'a')

/-- Concrete results list with two `recommendation_engine` entries carrying
different texts (realizable: the fallback tier can select
`recommendation_engine` and then `extend` appends it again, and the
dispatcher runs one task per occurrence). -/
def rsDup : List AgentResult :=
  [{ agent := "recommendation_engine", response := "A", confidence := 3/10 },
   { agent := "recommendation_engine", response := "B", confidence := 3/10 }]

/-- Helper: the registered-agents dict maps a key only to the role carrying
that key as its value. -/
theorem agentsDict_value {t : String} {r : AgentRole} (h : agentsDict t = some r) :
    r.value = t := by
  unfold agentsDict at h
  split at h <;> (try exact Option.noConfusion h) <;> (injection h with h; subst h; rfl)

/-- Helper: a specialist agent always reports its own role in the result,
whether the generation call succeeded or failed. -/
theorem process_agent_eq (role : AgentRole) (task : String) (gen : Except String String) :
    (SimpleHealthAgent.process role task gen).agent = role.value := by
  cases gen <;> rfl

/-- Helper: length of the boundary-witness strings. -/
theorem charsOfLen_length (n : Nat) : (charsOfLen n).length = n := by
  simp [charsOfLen, String.length]

/-- C3: the confidence score is a pure function of response length with
exactly the four bands of the spec — length 0 gives 0.0, lengths 1-49 give
0.3, lengths 50-199 give 0.6, lengths of 200 and above give 0.8 — and the
two `_calculate_confidence` implementations (`simple_ai_agents.py` and
`ai_agents.py`) agree on every input. -/
theorem calculate_confidence_bands (s : String) :
    (s.length = 0 → SimpleHealthAgent.calculate_confidence s = 0) ∧
    (1 ≤ s.length → s.length ≤ 49 → SimpleHealthAgent.calculate_confidence s = 3/10) ∧
    (50 ≤ s.length → s.length ≤ 199 → SimpleHealthAgent.calculate_confidence s = 6/10) ∧
    (200 ≤ s.length → SimpleHealthAgent.calculate_confidence s = 8/10) ∧
    HealthAIAgent.calculate_confidence s = SimpleHealthAgent.calculate_confidence s := by
  refine ⟨fun h0 => ?_, fun h1 h2 => ?_, fun h1 h2 => ?_, fun h1 => ?_, rfl⟩
  · simp [SimpleHealthAgent.calculate_confidence, h0]
  · have hne : ¬ s.length = 0 := by omega
    have hlt : s.length < 50 := by omega
    simp [SimpleHealthAgent.calculate_confidence, hne, hlt]
  · have hne : ¬ s.length = 0 := by omega
    have h50 : ¬ s.length < 50 := by omega
    have h200 : s.length < 200 := by omega
    simp [SimpleHealthAgent.calculate_confidence, hne, h50, h200]
  · have hne : ¬ s.length = 0 := by omega
    have h50 : ¬ s.length < 50 := by omega
    have h200 : ¬ s.length < 200 := by omega
    simp [SimpleHealthAgent.calculate_confidence, hne, h50, h200]

/-- C3 witness: the boundary inputs of lengths 0, 49, 50, 199 and 200 land in
the bands the claim names. -/
theorem calculate_confidence_bands_witness :
    SimpleHealthAgent.calculate_confidence "" = 0 ∧
    SimpleHealthAgent.calculate_confidence (charsOfLen 49) = 3/10 ∧
    SimpleHealthAgent.calculate_confidence (charsOfLen 50) = 6/10 ∧
    SimpleHealthAgent.calculate_confidence (charsOfLen 199) = 6/10 ∧
    SimpleHealthAgent.calculate_confidence (charsOfLen 200) = 8/10 :=
  ⟨(calculate_confidence_bands "").1 rfl,
   (calculate_confidence_bands (charsOfLen 49)).2.1
     (by simp [charsOfLen_length]) (by simp [charsOfLen_length]),
   (calculate_confidence_bands (charsOfLen 50)).2.2.1
     (by simp [charsOfLen_length]) (by simp [charsOfLen_length]),
   (calculate_confidence_bands (charsOfLen 199)).2.2.1
     (by simp [charsOfLen_length]) (by simp [charsOfLen_length]),
   (calculate_confidence_bands (charsOfLen 200)).2.2.2.1
     (by simp [charsOfLen_length])⟩

/-- C9: for the empty results list the synthesizer returns exactly the fixed
not-enough-information text, and the `false` flag records that the
generation service was never invoked on this branch. -/
theorem synthesize_empty_results_fixed_text (query : String) (gen : Except String String) :
    synthesize_responses query [] gen =
      ({ response := "I don\x27t have enough information to answer your health question." },
       false) := rfl

/-- C2: for every query and every collaborator behaviour,
`SimpleAIOrchestrator.process_query` returns the orchestrator-role error
message (the apology prefix followed by the `TypeError` text), stores the
error text under the `error` metadata key, and dispatches no agent: the
`async def _select_relevant_agents` handed to `asyncio.to_thread` comes back
as an un-awaited coroutine object, and iterating that object raises the
`TypeError` that the outer handler converts into this message. -/
theorem process_query_always_coroutine_typeerror (query : String)
    (agentGen : String → Except String String) (synthGen : Except String String) :
    (process_query query agentGen synthGen).message.role = "orchestrator" ∧
    (process_query query agentGen synthGen).message.content =
      "I\x27m sorry, but I encountered an error processing your query: " ++
        "\x27coroutine\x27 object is not iterable" ∧
    (process_query query agentGen synthGen).message.metadata.lookup "error" =
      some (MetaValue.str "\x27coroutine\x27 object is not iterable") ∧
    (process_query query agentGen synthGen).dispatched_agents = [] :=
  ⟨rfl, rfl, rfl, rfl⟩

set_option maxRecDepth 4000 in
/-- C7 counterexample: a retrieval-service failure is a collaborator failure
during `HealthAIAgent.process`, yet with a successful 200-character
generation the returned result has confidence 0.8 (not 0.1) and carries no
error: `_search_relevant_data` absorbs the retrieval error into an empty
snippet list and processing continues normally. -/
theorem process_retrieval_failure_not_low_confidence_cex :
    (HealthAIAgent.process .dna_analyst "t" (Except.error "vector store down")
        (Except.ok (charsOfLen 200))).confidence = 8/10 ∧
    ¬ ((8 : Rat)/10 = 1/10) ∧
    (HealthAIAgent.process .dna_analyst "t" (Except.error "vector store down")
        (Except.ok (charsOfLen 200))).error = none := by
  refine ⟨?_, by norm_num, rfl⟩
  show HealthAIAgent.calculate_confidence (charsOfLen 200) = 8/10
  have h : (charsOfLen 200).length = 200 := charsOfLen_length 200
  simp [HealthAIAgent.calculate_confidence, h]

/-- C7 amended: a generation-service failure is absorbed at the agent
boundary in both implementations — the call returns (never raises) an
`AgentResult` with confidence exactly 0.1, a failure-describing response
text, and the error captured; a retrieval-service failure alone is absorbed
earlier, into an empty retrieved-context, and the result then reflects the
generation outcome (length-based confidence, no error recorded). -/
theorem process_failure_absorption (role : AgentRole) (task e genText : String)
    (ret : Except String (List Snippet)) :
    SimpleHealthAgent.process role task (Except.error e) =
      { agent := role.value
        response := "I was unable to provide insights on " ++ task ++ " due to an error."
        confidence := 1/10
        error := some e } ∧
    HealthAIAgent.process role task ret (Except.error e) =
      { agent := role.value
        response := "Unable to analyze " ++ role.value ++ " data: " ++ e
        confidence := 1/10
        error := some e } ∧
    HealthAIAgent.process role task (Except.error e) (Except.ok genText) =
      { agent := role.value
        response := genText
        confidence := HealthAIAgent.calculate_confidence genText
        sources := some [] } :=
  ⟨rfl, rfl, rfl⟩

/-- C8: any query whose lowercased text contains one of the greeting
substrings makes the Streaming Coordinator pick `recommendation_engine`
directly, with the `false` flag recording that the Relevance Selector was
never invoked — and this holds for every possible selector behaviour. -/
theorem stream_greeting_shortcircuit (query : String) (selection : Option (List String))
    (h : containsAny (pyLower query) greetingWords = true) :
    chooseStreamAgent query selection = ("recommendation_engine", false) := by
  simp [chooseStreamAgent, h, AgentRole.value]

/-- C8 witness: the word high contains the substring hi, so a query about
high LDL is treated as a greeting and short-circuits to
`recommendation_engine` even though a selector answer was available. -/
theorem stream_greeting_shortcircuit_witness :
    containsAny (pyLower "Is my LDL too high") greetingWords = true ∧
    chooseStreamAgent "Is my LDL too high" (some ["dna_analyst"]) =
      ("recommendation_engine", false) :=
  ⟨by decide,
   stream_greeting_shortcircuit "Is my LDL too high" (some ["dna_analyst"]) (by decide)⟩

/-- C1 counterexample: `orchestrator` is a legal member of the closed role
set and can be requested (the fallback-tier parse at lines 324-327 matches
every enum member against the model text), but it is not registered in
`self.agents`, so the dispatcher silently drops it: three requested roles
yield only two results. -/
theorem dispatch_drops_unregistered_role_cex :
    (dispatch ["orchestrator", "correlation_finder", "recommendation_engine"] "task"
        (fun _ => Except.ok "ok")).length = 2 ∧
    (2 : Nat) ≠ 3 := by
  exact ⟨by decide, by decide⟩

/-- C1 amended: the dispatcher returns one `AgentResult` per requested role
that is registered in the agents dict (the five specialist roles), in the
order of the input role list and regardless of each agent succeeding or
failing; in particular, whenever every requested role is registered, the
output length equals the number of requested roles. -/
theorem dispatch_one_result_per_registered_role (task : String)
    (agent_types : List String) (gen : String → Except String String) :
    ((dispatch agent_types task gen).map (fun r => r.agent) =
      agent_types.filter (fun t => (agentsDict t).isSome)) ∧
    ((∀ t ∈ agent_types, (agentsDict t).isSome = true) →
      (dispatch agent_types task gen).length = agent_types.length) := by
  have hmain : (dispatch agent_types task gen).map (fun r => r.agent) =
      agent_types.filter (fun t => (agentsDict t).isSome) := by
    induction agent_types with
    | nil => rfl
    | cons t ts ih =>
      simp only [dispatch, List.filterMap_cons] at ih ⊢
      cases h : agentsDict t with
      | none => simp [h, List.filter_cons, ih]
      | some r =>
        simp [h, List.filter_cons, process_agent_eq, agentsDict_value h, ih]
  refine ⟨hmain, fun hall => ?_⟩
  have hlen : (dispatch agent_types task gen).length =
      ((dispatch agent_types task gen).map (fun r => r.agent)).length :=
    (List.length_map _ _).symm
  rw [hlen, hmain, List.filter_eq_self.mpr hall]

/-- C1 witness: both default roles are registered, and dispatching them with
a failing generation service still yields exactly two results. -/
theorem dispatch_one_result_per_registered_role_witness :
    (∀ t ∈ ["correlation_finder", "recommendation_engine"], (agentsDict t).isSome = true) ∧
    (dispatch ["correlation_finder", "recommendation_engine"] "task"
        (fun _ => Except.error "generation down")).length = 2 :=
  ⟨by decide,
   (dispatch_one_result_per_registered_role "task"
       ["correlation_finder", "recommendation_engine"]
       (fun _ => Except.error "generation down")).2 (by decide)⟩

/-- C5: when no keyword set matches the lowercased query and the fallback
generation call times out, errors, or returns text free of every role name,
the selector returns exactly the default pair. -/
theorem select_fallback_default_pair (query : String) (llm : Except String String)
    (hdna : containsAny (pyLower query) dna_keywords = false)
    (hmic : containsAny (pyLower query) microbiome_keywords = false)
    (hbio : containsAny (pyLower query) biomarker_keywords = false)
    (hllm : llmUnusable llm) :
    select_relevant_agents query llm = ["correlation_finder", "recommendation_engine"] := by
  cases llm with
  | error e => simp [select_relevant_agents, hdna, hmic, hbio, AgentRole.value]
  | ok r =>
    simp only [llmUnusable] at hllm
    have hsel : allRoles.filter (fun role => strContains (pyLower r) role.value) = [] := by
      apply List.filter_eq_nil_iff.mpr
      intro a ha
      simp [hllm a ha]
    simp only [select_relevant_agents]
    rw [hsel]
    simp [hdna, hmic, hbio, AgentRole.value]

/-- C5 witness: the query hello matches no keyword set, and with the
fallback call timing out the selector returns the default pair. -/
theorem select_fallback_default_pair_witness :
    containsAny (pyLower "hello") dna_keywords = false ∧
    containsAny (pyLower "hello") microbiome_keywords = false ∧
    containsAny (pyLower "hello") biomarker_keywords = false ∧
    select_relevant_agents "hello" (Except.error "TimeoutError") =
      ["correlation_finder", "recommendation_engine"] :=
  ⟨by decide, by decide, by decide,
   select_fallback_default_pair "hello" (Except.error "TimeoutError")
     (by decide) (by decide) (by decide) True.intro⟩

/-- C10: for every query and every fallback-call outcome the selected role
list contains both `correlation_finder` and `recommendation_engine`, and
therefore the streaming preference chain always resolves to
`recommendation_engine` whenever selection completes — the first-selected-
role branch of `stream_query` can never be reached. -/
theorem select_always_includes_defaults_and_stream_prefers_recommendation
    (query : String) (llm : Except String String) :
    "correlation_finder" ∈ select_relevant_agents query llm ∧
    "recommendation_engine" ∈ select_relevant_agents query llm ∧
    pickStreamAgent (select_relevant_agents query llm) = "recommendation_engine" := by
  have hboth : "correlation_finder" ∈ select_relevant_agents query llm ∧
      "recommendation_engine" ∈ select_relevant_agents query llm := by
    unfold select_relevant_agents
    cases llm with
    | error e =>
      cases hd : containsAny (pyLower query) dna_keywords <;>
      cases hm : containsAny (pyLower query) microbiome_keywords <;>
      cases hb : containsAny (pyLower query) biomarker_keywords <;>
      simp [hd, hm, hb, AgentRole.value]
    | ok r =>
      cases hd : containsAny (pyLower query) dna_keywords <;>
      cases hm : containsAny (pyLower query) microbiome_keywords <;>
      cases hb : containsAny (pyLower query) biomarker_keywords <;>
      simp [hd, hm, hb, AgentRole.value]
      split <;> simp
  refine ⟨hboth.1, hboth.2, ?_⟩
  unfold pickStreamAgent
  rw [if_pos hboth.2]

/-- C6 counterexample: with the synthesis call failing, a results list that
contains a `recommendation_engine` entry with text B still synthesizes to A,
because the fallback loop returns the first `recommendation_engine` entry it
meets. -/
theorem synthesize_not_every_recommendation_text_cex :
    (∃ r ∈ rsDup, r.agent = "recommendation_engine" ∧ r.response = "B") ∧
    (synthesize_responses "q" rsDup (Except.error "generation failed")).1.response = "A" ∧
    ("A" : String) ≠ "B" := by
  refine ⟨⟨{ agent := "recommendation_engine", response := "B", confidence := 3/10 },
           ?_, rfl, rfl⟩, rfl, by decide⟩
  simp [rsDup]

/-- C6 amended: if the synthesis call fails, the answer text is the response
of the first `recommendation_engine` entry of the results list; if the list
is non-empty and holds no such entry, it is the fixed
could-not-synthesize text.  In both cases `_synthesize_responses` returns
normally (the embedding is a total function: the exception is caught inside
it), so synthesis never raises past this boundary. -/
theorem synthesize_fallback_first_recommendation (query : String)
    (agent_results : List AgentResult) (e : String) :
    (∀ r, agent_results.find? (fun x => x.agent == "recommendation_engine") = some r →
      (synthesize_responses query agent_results (Except.error e)).1.response = r.response) ∧
    (agent_results ≠ [] →
      agent_results.find? (fun x => x.agent == "recommendation_engine") = none →
      (synthesize_responses query agent_results (Except.error e)).1.response =
        "I processed your health query but had trouble synthesizing the insights.") := by
  constructor
  · intro r hf
    have hne : agent_results ≠ [] := by
      intro hnil
      rw [hnil] at hf
      exact Option.noConfusion hf
    simp [synthesize_responses, List.isEmpty_iff, hne, hf]
  · intro hne hf
    simp [synthesize_responses, List.isEmpty_iff, hne, hf]

/-- C6 witness: on the concrete duplicate list the first
`recommendation_engine` entry is the one with text A, and the synthesized
answer is A. -/
theorem synthesize_fallback_first_recommendation_witness :
    rsDup.find? (fun x => x.agent == "recommendation_engine") =
      some { agent := "recommendation_engine", response := "A", confidence := 3/10 } ∧
    (synthesize_responses "q" rsDup (Except.error "generation failed")).1.response = "A" :=
  ⟨rfl,
   (synthesize_fallback_first_recommendation "q" rsDup "generation failed").1
     { agent := "recommendation_engine", response := "A", confidence := 3/10 } rfl⟩

/-- C4: whenever the delivery loop of `stream_query` trips a budget — the
overall 30 s ceiling re-checked before each chunk, or the 5 s allowance of
one chunk — the emitted sequence is exactly the chunks already delivered
followed by one final explanatory chunk, and the rest of the producer is
left unconsumed: the agent is abandoned, never retried. -/
theorem stream_timeout_single_terminal_chunk (elapsed : Nat)
    (chunks : List (Nat × String)) (k : Nat)
    (h : firstTimeoutIdx elapsed chunks = some k) :
    streamLoop elapsed chunks =
      ((chunks.take k).map Prod.snd ++ [stream_timeout_message], chunks.drop k) := by
  induction chunks generalizing elapsed k with
  | nil =>
    unfold firstTimeoutIdx at h
    unfold streamLoop
    by_cases h30 : elapsed > 30
    · simp [h30]
    · simp [h30] at h
  | cons c rest ih =>
    obtain ⟨dt, tok⟩ := c
    unfold firstTimeoutIdx at h
    unfold streamLoop
    by_cases h30 : elapsed > 30
    · simp [h30] at h ⊢
      obtain rfl : k = 0 := by omega
      simp
    · by_cases h5 : dt > 5
      · simp [h30, h5] at h ⊢
        obtain rfl : k = 0 := by omega
        simp
      · rw [if_neg h30, if_neg h5] at h
        rw [if_neg h30, if_neg h5]
        rw [Option.map_eq_some'] at h
        obtain ⟨k0, hk0, hk⟩ := h
        subst hk
        simp [ih _ _ hk0, List.take_succ_cons, List.drop_succ_cons]

/-- C4 witness: a first chunk arriving after 1 s is delivered; the second
chunk takes 6 s, trips the 5 s per-chunk budget, and the stream ends with
the single explanatory chunk while the producer keeps its pending chunk. -/
theorem stream_timeout_single_terminal_chunk_witness :
    firstTimeoutIdx 0 [(1, "a"), (6, "b")] = some 1 ∧
    streamLoop 0 [(1, "a"), (6, "b")] =
      (["a", stream_timeout_message], [(6, "b")]) :=
  ⟨rfl, stream_timeout_single_terminal_chunk 0 [(1, "a"), (6, "b")] 1 rfl⟩
